import Mathlib

/-!
# Verification of the lease-link-pay client data operations

Shallow embedding of the data model and the client-side database operations
of the property-management application: the join-request approval workflow
(`PendingRequests.tsx`), rejection, tenant-initiated join requests
(`JoinPropertySearch.tsx`), manual tenant addition (tenant-management
component), and the rent-collection aggregation (`RentCollection.tsx`).

Database tables are lists of row structures; each client-side database call
is either a read (select) or a write, and every fallible write carries an
explicit failure flag so that partial-failure executions of the multi-step
operations can be examined.  Monetary amounts are rationals (JavaScript
numbers restricted to the exact arithmetic the claims are about).
-/

namespace LeaseLinkPay

/-- A row of the `profiles` table. -/
structure Profile where
  user_id : Nat
  email : String
  full_name : String
  phone : Option String
  role : String
  deriving Repr, DecidableEq

/-- A row of the `properties` table. -/
structure Property where
  id : Nat
  landlord_id : Nat
  name : String
  address : String
  city : String
  is_searchable : Bool
  deriving Repr, DecidableEq

/-- A row of the `units` table. -/
structure UnitRow where
  id : Nat
  property_id : Nat
  rent_amount : ℚ
  status : String
  deriving Repr, DecidableEq

/-- A row of the `tenancies` table. -/
structure Tenancy where
  id : Nat
  tenant_id : Nat
  unit_id : Option Nat
  rent_amount : ℚ
  start_date : String
  end_date : Option String
  status : String
  deriving Repr, DecidableEq

/-- A row of the `payments` table. -/
structure Payment where
  id : Nat
  tenancy_id : Nat
  amount : ℚ
  payment_date : String
  status : String
  method : String
  deriving Repr, DecidableEq

/-- A row of the `join_requests` table. -/
structure JoinRequest where
  id : Nat
  tenant_id : Nat
  property_id : Nat
  unit_id : Option Nat
  status : String
  message : Option String
  rejection_reason : Option String
  deriving Repr, DecidableEq

/-- A row of the `maintenance_requests` table. -/
structure MaintenanceRequest where
  id : Nat
  unit_id : Nat
  tenant_id : Nat
  title : String
  description : String
  status : String
  deriving Repr, DecidableEq

/-- The database state: one list of rows per table. -/
structure DB where
  profiles : List Profile
  properties : List Property
  units : List UnitRow
  tenancies : List Tenancy
  payments : List Payment
  join_requests : List JoinRequest
  maintenance_requests : List MaintenanceRequest
  deriving Repr, DecidableEq

/-- The write calls the client issues (`.insert(...)` / `.update(...).eq(...)`
payloads that appear in the source). -/
inductive DBWrite where
  | insertProfile (p : Profile) : DBWrite
  | insertProperty (p : Property) : DBWrite
  | insertUnit (u : UnitRow) : DBWrite
  | insertTenancy (t : Tenancy) : DBWrite
  | insertPayment (p : Payment) : DBWrite
  | insertJoinRequest (r : JoinRequest) : DBWrite
  | insertMaintenance (m : MaintenanceRequest) : DBWrite
  | updateJoinRequestStatus (rid : Nat) (st : String) : DBWrite
  | updateJoinRequestRejected (rid : Nat) (reason : Option String) : DBWrite
  | updateUnitStatus (uid : Nat) (st : String) : DBWrite
  | updatePropertySearchable (pid : Nat) (b : Bool) : DBWrite
  deriving Repr, DecidableEq

/-- Effect of a single successful write on the database state.  Inserts
append a row; updates (`.update(payload).eq('id', x)`) rewrite the payload
columns of every row whose id matches. -/
def applyWrite (db : DB) (w : DBWrite) : DB :=
  match w with
  | .insertProfile p => { db with profiles := db.profiles ++ [p] }
  | .insertProperty p => { db with properties := db.properties ++ [p] }
  | .insertUnit u => { db with units := db.units ++ [u] }
  | .insertTenancy t => { db with tenancies := db.tenancies ++ [t] }
  | .insertPayment p => { db with payments := db.payments ++ [p] }
  | .insertJoinRequest r => { db with join_requests := db.join_requests ++ [r] }
  | .insertMaintenance m =>
      { db with maintenance_requests := db.maintenance_requests ++ [m] }
  | .updateJoinRequestStatus rid st =>
      { db with join_requests := db.join_requests.map fun r =>
          if r.id = rid then { r with status := st } else r }
  | .updateJoinRequestRejected rid reason =>
      { db with join_requests := db.join_requests.map fun r =>
          if r.id = rid then
            { r with status := "rejected", rejection_reason := reason } else r }
  | .updateUnitStatus uid st =>
      { db with units := db.units.map fun u =>
          if u.id = uid then { u with status := st } else u }
  | .updatePropertySearchable pid b =>
      { db with properties := db.properties.map fun p =>
          if p.id = pid then { p with is_searchable := b } else p }

/-- Applying a sequence of writes in order. -/
def applyWrites (db : DB) (ws : List DBWrite) : DB :=
  ws.foldl applyWrite db

/-! ## Fetch (read) queries -/

/-- Embeds `fetchRequests` of `PendingRequests.tsx`: the landlord's property ids,
then the pending join requests for those properties (the joined
property/unit/profile columns are presentation data and carry no further
rows). -/
def fetchRequests (db : DB) (landlordId : Nat) : List JoinRequest :=
  let propertyIds :=
    (db.properties.filter fun p => p.landlord_id == landlordId).map Property.id
  db.join_requests.filter fun r =>
    propertyIds.contains r.property_id && r.status == "pending"

/-- Embeds `fetchMyRequests` of `JoinPropertySearch.tsx`: the tenant's own join
requests. -/
def fetchMyRequests (db : DB) (tenantId : Nat) : List JoinRequest :=
  db.join_requests.filter fun r => r.tenant_id == tenantId

/-! ## The approval workflow (`approveRequest` in `PendingRequests.tsx`) -/

/-- The joined `units` columns carried by a fetched join request
(the `units?` field of the component's `JoinRequest` interface). -/
structure JoinedUnit where
  rent_amount : ℚ
  deriving Repr, DecidableEq

/-- A fetched join request as the `PendingRequests` component sees it:
the row columns plus the joined unit (when `unit_id` is set). -/
structure JoinRequestView where
  id : Nat
  tenant_id : Nat
  property_id : Nat
  unit_id : Option Nat
  status : String
  units : Option JoinedUnit
  deriving Repr, DecidableEq

/-- Which of the three sequential database calls of `approveRequest` fail
in a given execution. -/
structure ApproveFail where
  tenancyInsertFails : Bool
  requestUpdateFails : Bool
  unitUpdateFails : Bool
  deriving Repr, DecidableEq

/-- The fully-successful execution. -/
def ApproveFail.none : ApproveFail :=
  { tenancyInsertFails := false, requestUpdateFails := false,
    unitUpdateFails := false }

/-- Result of one run of `approveRequest`: the database afterwards, whether
the operation reported success (success toast) or failure (error toast),
and the writes that were successfully applied, in order. -/
structure ApproveOutcome where
  db : DB
  success : Bool
  writes : List DBWrite
  deriving Repr, DecidableEq

/-- The `tenancyData` record built at the top of `approveRequest`:
`rent_amount` is `Number(request.units?.rent_amount || 0)`, `start_date`
the current date, status `'active'`. -/
def tenancyData (request : JoinRequestView) (today : String)
    (newTenancyId : Nat) : Tenancy :=
  { id := newTenancyId
    tenant_id := request.tenant_id
    unit_id := request.unit_id
    rent_amount := (request.units.map JoinedUnit.rent_amount).getD 0
    start_date := today
    end_date := Option.none
    status := "active" }

/-- Embeds `approveRequest` of `PendingRequests.tsx`: insert the tenancy; on error
stop (caught, error toast).  Then update the join request's status to
`'approved'`; on error stop (caught, error toast).  Then, only when the
request names a unit, mark that unit `'occupied'`; an error here is
logged and swallowed ("Don't throw here as the main operations
succeeded"), so the success toast is still shown.  No failure path issues
any further (compensating) write. -/
def approveRequest (db : DB) (request : JoinRequestView) (today : String)
    (newTenancyId : Nat) (fail : ApproveFail) : ApproveOutcome :=
  let t := tenancyData request today newTenancyId
  if fail.tenancyInsertFails then
    { db := db, success := false, writes := [] }
  else
    let w1 := DBWrite.insertTenancy t
    let db1 := applyWrite db w1
    if fail.requestUpdateFails then
      { db := db1, success := false, writes := [w1] }
    else
      let w2 := DBWrite.updateJoinRequestStatus request.id "approved"
      let db2 := applyWrite db1 w2
      match request.unit_id with
      | some uid =>
          if fail.unitUpdateFails then
            { db := db2, success := true, writes := [w1, w2] }
          else
            let w3 := DBWrite.updateUnitStatus uid "occupied"
            { db := applyWrite db2 w3, success := true, writes := [w1, w2, w3] }
      | none => { db := db2, success := true, writes := [w1, w2] }

/-! ## Rejection (`rejectRequest` in `PendingRequests.tsx`) -/

/-- JavaScript's `String.prototype.trim()`: strip leading and trailing
whitespace. -/
def jsTrim (s : String) : String :=
  String.mk
    (((s.data.dropWhile Char.isWhitespace).reverse.dropWhile
        Char.isWhitespace).reverse)

/-- Result of one run of `rejectRequest`. -/
structure RejectOutcome where
  db : DB
  success : Bool
  writes : List DBWrite
  deriving Repr, DecidableEq

/-- Embeds `rejectRequest`: one update setting the selected request's status to
`'rejected'` and `rejection_reason` to `rejectionReason.trim() || null`. -/
def rejectRequest (db : DB) (requestId : Nat) (rejectionReason : String)
    (updateFails : Bool) : RejectOutcome :=
  let reason : Option String :=
    if jsTrim rejectionReason = "" then Option.none else some (jsTrim rejectionReason)
  if updateFails then
    { db := db, success := false, writes := [] }
  else
    let w := DBWrite.updateJoinRequestRejected requestId reason
    { db := applyWrite db w, success := true, writes := [w] }

/-! ## Tenant-initiated join request (`submitRequest` in
`JoinPropertySearch.tsx`) -/

/-- The database default for the `status` column of `join_requests`:
`submitRequest` inserts a row without a `status` field, so the row takes
the column default from the table's DDL migration,
`status join_request_status DEFAULT 'pending'` (the
`join_request_status` enum is `('pending', 'approved', 'rejected')`). -/
def joinRequestDefaultStatus : String := "pending"

/-- Embeds `submitRequest`: insert one join request with the tenant, property,
optionally selected unit, and trimmed-or-null message; the status comes
from the database default. -/
def submitRequest (db : DB) (tenantId propertyId : Nat) (unitId : Option Nat)
    (message : String) (newRequestId : Nat) (insertFails : Bool) : DB :=
  let requestData : JoinRequest :=
    { id := newRequestId
      tenant_id := tenantId
      property_id := propertyId
      unit_id := unitId
      status := joinRequestDefaultStatus
      message := if jsTrim message = "" then Option.none else some (jsTrim message)
      rejection_reason := Option.none }
  if insertFails then db
  else applyWrite db (DBWrite.insertJoinRequest requestData)

/-! ## Manual tenant addition (`handleAddTenant` in the tenant-management
component) -/

/-- The add-tenant form fields. -/
structure AddTenantForm where
  email : String
  fullName : String
  phone : String
  unitId : Nat
  rentAmount : ℚ
  startDate : String
  endDate : String
  deriving Repr, DecidableEq

/-- Which of the sequential database calls of `handleAddTenant` fail. -/
structure AddTenantFail where
  profileInsertFails : Bool
  tenancyInsertFails : Bool
  unitUpdateFails : Bool
  deriving Repr, DecidableEq

/-- The fully-successful execution. -/
def AddTenantFail.none : AddTenantFail :=
  { profileInsertFails := false, tenancyInsertFails := false,
    unitUpdateFails := false }

/-- Result of one run of `handleAddTenant`. -/
structure AddTenantOutcome where
  db : DB
  success : Bool
  writes : List DBWrite
  deriving Repr, DecidableEq

/-- Embeds `handleAddTenant`: look up a profile by email (`.single()` succeeds only
when exactly one row matches); create a placeholder profile when none is
found; insert the tenancy (status `'active'`, `end_date` from the form or
null); then update the unit to `'occupied'` — an error there IS thrown
(error toast), but the earlier writes are not undone. -/
def handleAddTenant (db : DB) (form : AddTenantForm)
    (newUserId newTenancyId : Nat) (fail : AddTenantFail) : AddTenantOutcome :=
  let matchedProfiles := db.profiles.filter fun p => p.email == form.email
  let existingUser : Option Profile :=
    match matchedProfiles with
    | [p] => some p
    | _ => Option.none
  let afterProfile : Option (DB × Nat × List DBWrite) :=
    match existingUser with
    | some u => some (db, u.user_id, [])
    | none =>
        if fail.profileInsertFails then Option.none
        else
          let newProfile : Profile :=
            { user_id := newUserId, email := form.email,
              full_name := form.fullName, phone := some form.phone,
              role := "tenant" }
          let w := DBWrite.insertProfile newProfile
          some (applyWrite db w, newUserId, [w])
  match afterProfile with
  | none => { db := db, success := false, writes := [] }
  | some (db1, tenantUserId, ws1) =>
      if fail.tenancyInsertFails then
        { db := db1, success := false, writes := ws1 }
      else
        let t : Tenancy :=
          { id := newTenancyId
            tenant_id := tenantUserId
            unit_id := some form.unitId
            rent_amount := form.rentAmount
            start_date := form.startDate
            end_date := if form.endDate = "" then Option.none
                        else some form.endDate
            status := "active" }
        let w2 := DBWrite.insertTenancy t
        let db2 := applyWrite db1 w2
        if fail.unitUpdateFails then
          { db := db2, success := false, writes := ws1 ++ [w2] }
        else
          let w3 := DBWrite.updateUnitStatus form.unitId "occupied"
          { db := applyWrite db2 w3, success := true,
            writes := ws1 ++ [w2, w3] }

/-! ## Rent-collection aggregation (`RentCollection.tsx`) -/

/-- One entry of the processed collection data (`RentCollectionData`):
the tenancy, its payments for the month, and the per-tenancy figures.
(`daysOverdue` depends on the wall clock and is outside the claims.) -/
structure RentCollectionData where
  tenancy : Tenancy
  payments : List Payment
  totalPaid : ℚ
  amountDue : ℚ
  deriving Repr, DecidableEq

/-- The per-tenancy processing step inside `fetchRentCollectionData`:
filter the fetched payment rows to this tenancy, sum the `'completed'`
ones (`reduce((sum, p) => sum + Number(p.amount), 0)`), and compute
`amountDue = Math.max(0, rentAmount - totalPaid)`. -/
def processTenancy (paymentsData : List Payment) (tenancy : Tenancy) :
    RentCollectionData :=
  let tenancyPayments := paymentsData.filter fun p => p.tenancy_id == tenancy.id
  let totalPaid :=
    ((tenancyPayments.filter fun p => p.status == "completed").foldl
      (fun sum p => sum + p.amount) 0)
  let rentAmount := tenancy.rent_amount
  let amountDue := max 0 (rentAmount - totalPaid)
  { tenancy := tenancy, payments := tenancyPayments,
    totalPaid := totalPaid, amountDue := amountDue }

/-- Embeds `fetchRentCollectionData`: map the processing step over the fetched
active tenancies. -/
def fetchRentCollectionData (tenanciesData : List Tenancy)
    (paymentsData : List Payment) : List RentCollectionData :=
  tenanciesData.map (processTenancy paymentsData)

/-- Embeds `totalExpectedRent` of the `RentCollection` component body. -/
def totalExpectedRent (collectionData : List RentCollectionData) : ℚ :=
  collectionData.foldl (fun sum item => sum + item.tenancy.rent_amount) 0

/-- Embeds `totalCollectedRent` of the `RentCollection` component body. -/
def totalCollectedRent (collectionData : List RentCollectionData) : ℚ :=
  collectionData.foldl (fun sum item => sum + item.totalPaid) 0

/-- Embeds `totalOutstanding` of the `RentCollection` component body. -/
def totalOutstanding (collectionData : List RentCollectionData) : ℚ :=
  collectionData.foldl (fun sum item => sum + item.amountDue) 0

/-- Embeds `collectionRate`: percentage collected, `0` when no rent is expected. -/
def collectionRate (collectionData : List RentCollectionData) : ℚ :=
  if totalExpectedRent collectionData > 0 then
    totalCollectedRent collectionData / totalExpectedRent collectionData * 100
  else 0

/-! ## Client-side database calls: reads and writes

For the frame claims about the real-time subscription handlers, a client
call is either a select query (naming the table it reads) or a write. -/

/-- One client-side database call. -/
inductive DBCall where
  | selectQuery (table : String) : DBCall
  | write (w : DBWrite) : DBCall
  deriving Repr, DecidableEq

/-- A select leaves the database unchanged; a write applies its effect. -/
def execCall (db : DB) (c : DBCall) : DB :=
  match c with
  | .selectQuery _ => db
  | .write w => applyWrite db w

/-- Executing a sequence of client calls in order. -/
def execCalls (db : DB) (cs : List DBCall) : DB :=
  cs.foldl execCall db

/-- The calls issued by `fetchRequests` (`PendingRequests.tsx`): a select
on `properties`, then a select on `join_requests`. -/
def fetchRequestsCalls : List DBCall :=
  [DBCall.selectQuery "properties", DBCall.selectQuery "join_requests"]

/-- The calls issued by `fetchTenantData` (tenant dashboard): a select on
`tenancies`, then a select on `payments`. -/
def fetchTenantDataCalls : List DBCall :=
  [DBCall.selectQuery "tenancies", DBCall.selectQuery "payments"]

/-- The calls issued by `fetchMyRequests` (`JoinPropertySearch.tsx`): one
select on `join_requests`. -/
def fetchMyRequestsCalls : List DBCall :=
  [DBCall.selectQuery "join_requests"]

/-- The `postgres_changes` handler of the `pending_requests_changes`
channel (`PendingRequests.tsx`) calls `fetchRequests()`. -/
def pendingRequestsHandlerCalls : List DBCall := fetchRequestsCalls

/-- The `postgres_changes` handler of the `tenant-tenancies` channel
(tenant dashboard) calls `fetchTenantData()`. -/
def tenantTenanciesHandlerCalls : List DBCall := fetchTenantDataCalls

/-- The `postgres_changes` handler of the `tenant-requests` channel
(`TenantDashboard.tsx`) calls `fetchMyRequests()`. -/
def tenantRequestsHandlerCalls : List DBCall := fetchMyRequestsCalls

/-- The `postgres_changes` handler of the `join_requests_changes` channel
(`JoinPropertySearch.tsx`) calls `fetchMyRequests()`. -/
def joinRequestsChangesHandlerCalls : List DBCall := fetchMyRequestsCalls

/-! ## All write operations of the application

Every code path in the application that writes to the database, as one
inductive: the three join-request operations, manual tenant addition, and
the simple single-insert/update forms (payments, properties, units,
maintenance requests, property visibility). -/

/-- One user-level operation of the application, with its inputs and, for
the multi-step operations, the failure pattern of its calls. -/
inductive AppOp where
  | submitRequest (tenantId propertyId : Nat) (unitId : Option Nat)
      (message : String) (newRequestId : Nat) (insertFails : Bool) : AppOp
  | approveRequest (request : JoinRequestView) (today : String)
      (newTenancyId : Nat) (fail : ApproveFail) : AppOp
  | rejectRequest (requestId : Nat) (rejectionReason : String)
      (updateFails : Bool) : AppOp
  | handleAddTenant (form : AddTenantForm) (newUserId newTenancyId : Nat)
      (fail : AddTenantFail) : AppOp
  | handlePayment (p : Payment) (insertFails : Bool) : AppOp
  | addProperty (p : Property) (insertFails : Bool) : AppOp
  | addUnit (u : UnitRow) (insertFails : Bool) : AppOp
  | addMaintenanceRequest (m : MaintenanceRequest) (insertFails : Bool) : AppOp
  | toggleSearchability (propertyId : Nat) (currentValue : Bool)
      (updateFails : Bool) : AppOp

/-- The database state after running one application operation. -/
def applyAppOp (db : DB) (op : AppOp) : DB :=
  match op with
  | .submitRequest tid pid uid msg nid f => submitRequest db tid pid uid msg nid f
  | .approveRequest req today nid fail => (approveRequest db req today nid fail).db
  | .rejectRequest rid reason f => (rejectRequest db rid reason f).db
  | .handleAddTenant form nu nt fail => (handleAddTenant db form nu nt fail).db
  | .handlePayment p f => if f then db else applyWrite db (DBWrite.insertPayment p)
  | .addProperty p f => if f then db else applyWrite db (DBWrite.insertProperty p)
  | .addUnit u f => if f then db else applyWrite db (DBWrite.insertUnit u)
  | .addMaintenanceRequest m f =>
      if f then db else applyWrite db (DBWrite.insertMaintenance m)
  | .toggleSearchability pid cur f =>
      if f then db
      else applyWrite db (DBWrite.updatePropertySearchable pid (!cur))

/-! ## Invariants -/

/-- The spec's occupancy invariant: a unit's status is `'occupied'` exactly
when an active tenancy references that unit. -/
def unitOccupancyInvariant (db : DB) : Prop :=
  ∀ u ∈ db.units,
    (u.status = "occupied" ↔
      ∃ t ∈ db.tenancies, t.status = "active" ∧ t.unit_id = some u.id)

instance (db : DB) : Decidable (unitOccupancyInvariant db) := by
  unfold unitOccupancyInvariant
  infer_instance

/-- A join-request status is one of the three legal values. -/
def statusOk (r : JoinRequest) : Prop :=
  r.status = "pending" ∨ r.status = "approved" ∨ r.status = "rejected"

instance (r : JoinRequest) : Decidable (statusOk r) := by
  unfold statusOk
  infer_instance

/-- Side conditions under which an operation is issued by the UI: the
approve and reject buttons act on a request taken from the landlord's
fetched pending list. -/
def opWellFormed (db : DB) (op : AppOp) : Prop :=
  match op with
  | .approveRequest req _ _ _ =>
      ∃ landlordId row, row ∈ fetchRequests db landlordId ∧ req.id = row.id
  | .rejectRequest rid _ _ =>
      ∃ landlordId row, row ∈ fetchRequests db landlordId ∧ rid = row.id
  | _ => True

/-- The full intended write sequence of one approval: insert the tenancy,
approve the request, and — when the request names a unit — occupy it. -/
def approveFullWrites (request : JoinRequestView) (today : String)
    (newTenancyId : Nat) : List DBWrite :=
  [DBWrite.insertTenancy (tenancyData request today newTenancyId),
   DBWrite.updateJoinRequestStatus request.id "approved"]
  ++ (match request.unit_id with
      | some uid => [DBWrite.updateUnitStatus uid "occupied"]
      | none => [])

/-! ## Concrete sample data, used to instantiate the results below -/

/-- A sample property of landlord 9. -/
def sampleProperty : Property :=
  { id := 3, landlord_id := 9, name := "Sunrise Court", address := "1 Main St",
    city := "Kampala", is_searchable := true }

/-- A sample vacant unit of the sample property. -/
def sampleUnit : UnitRow :=
  { id := 1, property_id := 3, rent_amount := 500, status := "vacant" }

/-- A sample pending join request naming the sample unit. -/
def sampleRequest : JoinRequest :=
  { id := 4, tenant_id := 2, property_id := 3, unit_id := some 1,
    status := "pending", message := Option.none, rejection_reason := Option.none }

/-- A sample pending join request with no unit selected ("Any available
unit"). -/
def sampleRequestNoUnit : JoinRequest :=
  { id := 5, tenant_id := 2, property_id := 3, unit_id := Option.none,
    status := "pending", message := Option.none, rejection_reason := Option.none }

/-- A sample database: one landlord property, one vacant unit, two pending
join requests, no tenancies. -/
def sampleDB : DB :=
  { profiles := [], properties := [sampleProperty], units := [sampleUnit],
    tenancies := [], payments := [],
    join_requests := [sampleRequest, sampleRequestNoUnit],
    maintenance_requests := [] }

/-- The sample unit-naming request as the `PendingRequests` component
fetches it (unit columns joined). -/
def sampleView : JoinRequestView :=
  { id := 4, tenant_id := 2, property_id := 3, unit_id := some 1,
    status := "pending", units := some { rent_amount := 500 } }

/-- The sample unit-less request as fetched (no joined unit). -/
def sampleViewNoUnit : JoinRequestView :=
  { id := 5, tenant_id := 2, property_id := 3, unit_id := Option.none,
    status := "pending", units := Option.none }

/-- A sample active tenancy. -/
def sampleTenancy : Tenancy :=
  { id := 11, tenant_id := 2, unit_id := some 1, rent_amount := 500,
    start_date := "2026-01-01", end_date := Option.none, status := "active" }

/-- Sample fetched payment rows: one completed and one pending payment of
the sample tenancy, and a completed payment of another tenancy. -/
def samplePayments : List Payment :=
  [{ id := 21, tenancy_id := 11, amount := 200, payment_date := "2026-10-05",
     status := "completed", method := "MTN MoMo" },
   { id := 22, tenancy_id := 11, amount := 100, payment_date := "2026-10-06",
     status := "pending", method := "Credit Card" },
   { id := 23, tenancy_id := 12, amount := 50, payment_date := "2026-10-07",
     status := "completed", method := "MTN MoMo" }]

/-- A sample filled add-tenant form. -/
def sampleAddTenantForm : AddTenantForm :=
  { email := "tenant@example.com", fullName := "Sam Tenant", phone := "0700",
    unitId := 1, rentAmount := 500, startDate := "2026-10-01", endDate := "" }

/-! ## Helper lemmas -/

lemma foldl_add_map {α : Type} (f : α → ℚ) (l : List α) (a : ℚ) :
    l.foldl (fun s x => s + f x) a = a + (l.map f).sum := by
  induction l generalizing a with
  | nil => simp
  | cons x xs ih =>
      rw [List.foldl_cons, ih, List.map_cons, List.sum_cons]
      ring

lemma mem_fetchRequests (db : DB) (landlordId : Nat) (r : JoinRequest)
    (h : r ∈ fetchRequests db landlordId) :
    r ∈ db.join_requests ∧ r.status = "pending" := by
  unfold fetchRequests at h
  rw [List.mem_filter] at h
  refine ⟨h.1, ?_⟩
  have h2 := h.2
  simp only [Bool.and_eq_true, beq_iff_eq] at h2
  exact h2.2

lemma approveRequest_db_eq_applyWrites (db : DB) (request : JoinRequestView)
    (today : String) (newTenancyId : Nat) (fail : ApproveFail) :
    (approveRequest db request today newTenancyId fail).db
      = applyWrites db (approveRequest db request today newTenancyId fail).writes := by
  obtain ⟨f1, f2, f3⟩ := fail
  cases hru : request.unit_id <;> cases f1 <;> cases f2 <;> cases f3 <;>
    simp [approveRequest, applyWrites, hru]

lemma approveRequest_writes_ordered (db : DB) (request : JoinRequestView)
    (today : String) (newTenancyId : Nat) (fail : ApproveFail) :
    (approveRequest db request today newTenancyId fail).writes
      <+: approveFullWrites request today newTenancyId := by
  obtain ⟨f1, f2, f3⟩ := fail
  cases hru : request.unit_id <;> cases f1 <;> cases f2 <;> cases f3 <;>
    · simp only [approveRequest, approveFullWrites, hru]
      exact ⟨_, rfl⟩

lemma approveRequest_success_writes (db : DB) (request : JoinRequestView)
    (today : String) (newTenancyId : Nat) :
    (approveRequest db request today newTenancyId ApproveFail.none).writes
      = approveFullWrites request today newTenancyId := by
  cases hru : request.unit_id <;>
    simp [approveRequest, approveFullWrites, ApproveFail.none, hru]

/-! ## C1 -/

/-- C1 (counterexample): the claim says the approval of every pending join
request performs the unit-status update as its third step, but for the
sample pending request that selected no specific unit, a fully successful
run issues only the tenancy insert and the join-request update — its
complete write list has no unit-status write and the units table is
untouched. -/
theorem approveRequest_no_unit_step_counterexample :
    sampleViewNoUnit.status = "pending"
    ∧ sampleRequestNoUnit ∈ sampleDB.join_requests
    ∧ sampleViewNoUnit.id = sampleRequestNoUnit.id
    ∧ (approveRequest sampleDB sampleViewNoUnit "2026-10-12" 7
        ApproveFail.none).success = true
    ∧ (approveRequest sampleDB sampleViewNoUnit "2026-10-12" 7
        ApproveFail.none).writes
        = [DBWrite.insertTenancy (tenancyData sampleViewNoUnit "2026-10-12" 7),
           DBWrite.updateJoinRequestStatus 5 "approved"]
    ∧ (approveRequest sampleDB sampleViewNoUnit "2026-10-12" 7
        ApproveFail.none).db.units = sampleDB.units := by
  decide

/-- C1 (amended): for every pending join request, `approveRequest` issues
its client-side calls sequentially in the order: insert the tenancy row,
update the join request's status to `'approved'`, and — when the request
names a unit — update that unit's status to `'occupied'`.  On every
failure path the applied writes are a prefix of this sequence and the
final state is exactly their sequential application (no compensating
write), and a fully successful run applies exactly the whole sequence. -/
theorem approveRequest_sequential_no_compensation (db : DB)
    (request : JoinRequestView) (today : String) (newTenancyId : Nat)
    (fail : ApproveFail) (hpending : request.status = "pending") :
    (approveRequest db request today newTenancyId fail).db
        = applyWrites db (approveRequest db request today newTenancyId fail).writes
    ∧ (approveRequest db request today newTenancyId fail).writes
        <+: approveFullWrites request today newTenancyId
    ∧ (fail = ApproveFail.none →
        (approveRequest db request today newTenancyId fail).writes
          = approveFullWrites request today newTenancyId) :=
  ⟨approveRequest_db_eq_applyWrites db request today newTenancyId fail,
   approveRequest_writes_ordered db request today newTenancyId fail,
   fun h => h ▸ approveRequest_success_writes db request today newTenancyId⟩

/-- C1 (witness): the amended theorem instantiated at the sample database
and the sample pending request, on the fully successful run. -/
theorem approveRequest_sequential_no_compensation_witness :
    sampleView.status = "pending"
    ∧ ((approveRequest sampleDB sampleView "2026-10-12" 7 ApproveFail.none).db
        = applyWrites sampleDB
            (approveRequest sampleDB sampleView "2026-10-12" 7 ApproveFail.none).writes
      ∧ (approveRequest sampleDB sampleView "2026-10-12" 7 ApproveFail.none).writes
          <+: approveFullWrites sampleView "2026-10-12" 7
      ∧ (ApproveFail.none = ApproveFail.none →
          (approveRequest sampleDB sampleView "2026-10-12" 7 ApproveFail.none).writes
            = approveFullWrites sampleView "2026-10-12" 7)) :=
  ⟨by decide,
   approveRequest_sequential_no_compensation sampleDB sampleView "2026-10-12" 7
     ApproveFail.none (by decide)⟩

/-! ## C2 -/

/-- C2: a run of `approveRequest` that reports success appends exactly one
tenancy row — `tenancyData` — whose `tenant_id` is the request's tenant and
whose status is `'active'`; the tenancy count grows by exactly one. -/
theorem approveRequest_single_tenancy_insert (db : DB)
    (request : JoinRequestView) (today : String) (newTenancyId : Nat)
    (fail : ApproveFail)
    (hsucc : (approveRequest db request today newTenancyId fail).success = true) :
    (approveRequest db request today newTenancyId fail).db.tenancies
        = db.tenancies ++ [tenancyData request today newTenancyId]
    ∧ (approveRequest db request today newTenancyId fail).db.tenancies.length
        = db.tenancies.length + 1
    ∧ (tenancyData request today newTenancyId).tenant_id = request.tenant_id
    ∧ (tenancyData request today newTenancyId).status = "active" := by
  obtain ⟨f1, f2, f3⟩ := fail
  cases hru : request.unit_id <;> cases f1 <;> cases f2 <;> cases f3 <;>
    simp_all [approveRequest, applyWrite, tenancyData, hru]

/-- C2 (witness): the single-tenancy theorem at the sample database and
request, on the fully successful run. -/
theorem approveRequest_single_tenancy_insert_witness :
    (approveRequest sampleDB sampleView "2026-10-12" 7 ApproveFail.none).success
        = true
    ∧ ((approveRequest sampleDB sampleView "2026-10-12" 7 ApproveFail.none).db.tenancies
        = sampleDB.tenancies ++ [tenancyData sampleView "2026-10-12" 7]
      ∧ (approveRequest sampleDB sampleView "2026-10-12" 7
            ApproveFail.none).db.tenancies.length
          = sampleDB.tenancies.length + 1
      ∧ (tenancyData sampleView "2026-10-12" 7).tenant_id = sampleView.tenant_id
      ∧ (tenancyData sampleView "2026-10-12" 7).status = "active") :=
  ⟨by decide,
   approveRequest_single_tenancy_insert sampleDB sampleView "2026-10-12" 7
     ApproveFail.none (by decide)⟩

/-! ## C3 -/

/-- C3: when the join-request status update fails after the tenancy insert
succeeded, `approveRequest` reports failure but the new tenancy row stays
in the database while the request row is still `'pending'` — the prior
write is not undone. -/
theorem approveRequest_partial_failure_orphan (db : DB)
    (request : JoinRequestView) (today : String) (newTenancyId : Nat)
    (req : JoinRequest) (hmem : req ∈ db.join_requests)
    (hid : req.id = request.id) (hpending : req.status = "pending") :
    (approveRequest db request today newTenancyId
        { tenancyInsertFails := false, requestUpdateFails := true,
          unitUpdateFails := false }).success = false
    ∧ (approveRequest db request today newTenancyId
        { tenancyInsertFails := false, requestUpdateFails := true,
          unitUpdateFails := false }).db.tenancies
        = db.tenancies ++ [tenancyData request today newTenancyId]
    ∧ req ∈ (approveRequest db request today newTenancyId
        { tenancyInsertFails := false, requestUpdateFails := true,
          unitUpdateFails := false }).db.join_requests
    ∧ req.status = "pending" := by
  simp [approveRequest, applyWrite, hmem, hpending]

/-- C3 (witness): the partial-failure theorem at the sample database and
request. -/
theorem approveRequest_partial_failure_orphan_witness :
    (sampleRequest ∈ sampleDB.join_requests ∧ sampleRequest.id = sampleView.id
      ∧ sampleRequest.status = "pending")
    ∧ ((approveRequest sampleDB sampleView "2026-10-12" 7
        { tenancyInsertFails := false, requestUpdateFails := true,
          unitUpdateFails := false }).success = false
      ∧ (approveRequest sampleDB sampleView "2026-10-12" 7
          { tenancyInsertFails := false, requestUpdateFails := true,
            unitUpdateFails := false }).db.tenancies
          = sampleDB.tenancies ++ [tenancyData sampleView "2026-10-12" 7]
      ∧ sampleRequest ∈ (approveRequest sampleDB sampleView "2026-10-12" 7
          { tenancyInsertFails := false, requestUpdateFails := true,
            unitUpdateFails := false }).db.join_requests
      ∧ sampleRequest.status = "pending") :=
  ⟨by decide,
   approveRequest_partial_failure_orphan sampleDB sampleView "2026-10-12" 7
     sampleRequest (by decide) (by decide) (by decide)⟩

/-! ## C8 -/

/-- C8: when the tenancy insert and the join-request update succeed but the
final unit-status update fails, `approveRequest` still reports success, its
applied writes are exactly the first two steps (nothing is undone or
retried), and the units table is unchanged. -/
theorem approveRequest_swallows_unit_failure (db : DB)
    (request : JoinRequestView) (today : String) (newTenancyId : Nat)
    (uid : Nat) (hunit : request.unit_id = some uid) :
    (approveRequest db request today newTenancyId
        { tenancyInsertFails := false, requestUpdateFails := false,
          unitUpdateFails := true }).success = true
    ∧ (approveRequest db request today newTenancyId
        { tenancyInsertFails := false, requestUpdateFails := false,
          unitUpdateFails := true }).writes
        = [DBWrite.insertTenancy (tenancyData request today newTenancyId),
           DBWrite.updateJoinRequestStatus request.id "approved"]
    ∧ (approveRequest db request today newTenancyId
        { tenancyInsertFails := false, requestUpdateFails := false,
          unitUpdateFails := true }).db
        = applyWrite
            (applyWrite db
              (DBWrite.insertTenancy (tenancyData request today newTenancyId)))
            (DBWrite.updateJoinRequestStatus request.id "approved")
    ∧ (approveRequest db request today newTenancyId
        { tenancyInsertFails := false, requestUpdateFails := false,
          unitUpdateFails := true }).db.units = db.units := by
  simp [approveRequest, applyWrite, hunit]

/-- C8 (witness): the swallowed-failure theorem at the sample database and
request. -/
theorem approveRequest_swallows_unit_failure_witness :
    sampleView.unit_id = some 1
    ∧ ((approveRequest sampleDB sampleView "2026-10-12" 7
        { tenancyInsertFails := false, requestUpdateFails := false,
          unitUpdateFails := true }).success = true
      ∧ (approveRequest sampleDB sampleView "2026-10-12" 7
          { tenancyInsertFails := false, requestUpdateFails := false,
            unitUpdateFails := true }).writes
          = [DBWrite.insertTenancy (tenancyData sampleView "2026-10-12" 7),
             DBWrite.updateJoinRequestStatus sampleView.id "approved"]
      ∧ (approveRequest sampleDB sampleView "2026-10-12" 7
          { tenancyInsertFails := false, requestUpdateFails := false,
            unitUpdateFails := true }).db
          = applyWrite
              (applyWrite sampleDB
                (DBWrite.insertTenancy (tenancyData sampleView "2026-10-12" 7)))
              (DBWrite.updateJoinRequestStatus sampleView.id "approved")
      ∧ (approveRequest sampleDB sampleView "2026-10-12" 7
          { tenancyInsertFails := false, requestUpdateFails := false,
            unitUpdateFails := true }).db.units = sampleDB.units) :=
  ⟨by decide,
   approveRequest_swallows_unit_failure sampleDB sampleView "2026-10-12" 7 1
     (by decide)⟩

/-! ## C9 -/

/-- C9: approving a request with no unit selected still succeeds and
creates a tenancy whose `unit_id` is null, whose rent is the `0` fallback,
with `start_date` the current date and status `'active'`. -/
theorem approveRequest_without_unit (db : DB) (request : JoinRequestView)
    (today : String) (newTenancyId : Nat)
    (hunit : request.unit_id = Option.none)
    (hjoined : request.units = Option.none) :
    (approveRequest db request today newTenancyId ApproveFail.none).success
        = true
    ∧ (approveRequest db request today newTenancyId ApproveFail.none).db.tenancies
        = db.tenancies ++ [tenancyData request today newTenancyId]
    ∧ (tenancyData request today newTenancyId).unit_id = Option.none
    ∧ (tenancyData request today newTenancyId).rent_amount = 0
    ∧ (tenancyData request today newTenancyId).start_date = today
    ∧ (tenancyData request today newTenancyId).status = "active" := by
  simp [approveRequest, ApproveFail.none, tenancyData, hunit, hjoined,
    applyWrite]

/-- C9 (witness): the unit-less approval theorem at the sample database and
the sample unit-less request. -/
theorem approveRequest_without_unit_witness :
    (sampleViewNoUnit.unit_id = Option.none
      ∧ sampleViewNoUnit.units = Option.none)
    ∧ ((approveRequest sampleDB sampleViewNoUnit "2026-10-12" 7
          ApproveFail.none).success = true
      ∧ (approveRequest sampleDB sampleViewNoUnit "2026-10-12" 7
          ApproveFail.none).db.tenancies
          = sampleDB.tenancies ++ [tenancyData sampleViewNoUnit "2026-10-12" 7]
      ∧ (tenancyData sampleViewNoUnit "2026-10-12" 7).unit_id = Option.none
      ∧ (tenancyData sampleViewNoUnit "2026-10-12" 7).rent_amount = 0
      ∧ (tenancyData sampleViewNoUnit "2026-10-12" 7).start_date = "2026-10-12"
      ∧ (tenancyData sampleViewNoUnit "2026-10-12" 7).status = "active") :=
  ⟨by decide,
   approveRequest_without_unit sampleDB sampleViewNoUnit "2026-10-12" 7
     (by decide) (by decide)⟩

/-! ## C10 -/

/-- C10: a successful rejection changes nothing but the join-requests
table, and there it maps every row through a function that rewrites only
the selected request's row — setting its status to `'rejected'` and its
`rejection_reason` to the trimmed reason, or null when the trimmed reason
is empty — and leaves every other row equal to itself. -/
theorem rejectRequest_frame (db : DB) (requestId : Nat) (reason : String) :
    (rejectRequest db requestId reason false).success = true
    ∧ (rejectRequest db requestId reason false).db.profiles = db.profiles
    ∧ (rejectRequest db requestId reason false).db.properties = db.properties
    ∧ (rejectRequest db requestId reason false).db.units = db.units
    ∧ (rejectRequest db requestId reason false).db.tenancies = db.tenancies
    ∧ (rejectRequest db requestId reason false).db.payments = db.payments
    ∧ (rejectRequest db requestId reason false).db.maintenance_requests
        = db.maintenance_requests
    ∧ (rejectRequest db requestId reason false).db.join_requests
        = db.join_requests.map (fun r =>
            if r.id = requestId then
              { r with status := "rejected",
                       rejection_reason :=
                         if jsTrim reason = "" then Option.none
                         else some (jsTrim reason) }
            else r)
    ∧ (∀ r ∈ db.join_requests, r.id ≠ requestId →
        r ∈ (rejectRequest db requestId reason false).db.join_requests) := by
  refine ⟨rfl, rfl, rfl, rfl, rfl, rfl, rfl, rfl, ?_⟩
  intro r hr hne
  have : (rejectRequest db requestId reason false).db.join_requests
      = db.join_requests.map (fun s =>
          if s.id = requestId then
            { s with status := "rejected",
                     rejection_reason :=
                       if jsTrim reason = "" then Option.none
                       else some (jsTrim reason) }
          else s) := rfl
  rw [this, List.mem_map]
  exact ⟨r, hr, by simp [hne]⟩

/-! ## C5 -/

/-- C5: for every entry of the rent-collection data, `totalPaid` is the sum
of the amounts of that tenancy's fetched payments with status
`'completed'`, `amountDue` is `max 0 (rent_amount - totalPaid)` and hence
never negative; the summary totals are the sums of the per-tenancy values
over all entries, and the collection rate is `0` when the expected rent is
`0`. -/
theorem rentCollection_aggregation (tenanciesData : List Tenancy)
    (paymentsData : List Payment) (item : RentCollectionData)
    (hmem : item ∈ fetchRentCollectionData tenanciesData paymentsData) :
    item.totalPaid
        = (((paymentsData.filter fun p => p.tenancy_id == item.tenancy.id).filter
            fun p => p.status == "completed").map Payment.amount).sum
    ∧ item.amountDue = max 0 (item.tenancy.rent_amount - item.totalPaid)
    ∧ 0 ≤ item.amountDue
    ∧ totalExpectedRent (fetchRentCollectionData tenanciesData paymentsData)
        = ((fetchRentCollectionData tenanciesData paymentsData).map
            fun i => i.tenancy.rent_amount).sum
    ∧ totalCollectedRent (fetchRentCollectionData tenanciesData paymentsData)
        = ((fetchRentCollectionData tenanciesData paymentsData).map
            fun i => i.totalPaid).sum
    ∧ totalOutstanding (fetchRentCollectionData tenanciesData paymentsData)
        = ((fetchRentCollectionData tenanciesData paymentsData).map
            fun i => i.amountDue).sum
    ∧ (totalExpectedRent (fetchRentCollectionData tenanciesData paymentsData) = 0
        → collectionRate (fetchRentCollectionData tenanciesData paymentsData)
            = 0) := by
  obtain ⟨t, ht, rfl⟩ := List.mem_map.mp hmem
  refine ⟨?_, ?_, ?_, ?_, ?_, ?_, ?_⟩
  · show ((((paymentsData.filter fun p => p.tenancy_id == t.id).filter
        fun p => p.status == "completed").foldl (fun sum p => sum + p.amount) 0))
        = _
    rw [foldl_add_map Payment.amount]
    simp [processTenancy]
  · simp [processTenancy]
  · exact le_max_left 0 _
  · rw [totalExpectedRent,
      foldl_add_map (fun i : RentCollectionData => i.tenancy.rent_amount)]
    simp
  · rw [totalCollectedRent,
      foldl_add_map (fun i : RentCollectionData => i.totalPaid)]
    simp
  · rw [totalOutstanding,
      foldl_add_map (fun i : RentCollectionData => i.amountDue)]
    simp
  · intro h
    simp [collectionRate, h]

/-- C5 (witness): the aggregation theorem at a one-tenancy list and the
sample fetched payments (one completed payment of 200, one pending payment,
one completed payment of another tenancy). -/
theorem rentCollection_aggregation_witness :
    processTenancy samplePayments sampleTenancy
        ∈ fetchRentCollectionData [sampleTenancy] samplePayments
    ∧ ((processTenancy samplePayments sampleTenancy).totalPaid
        = (((samplePayments.filter fun p =>
              p.tenancy_id == (processTenancy samplePayments sampleTenancy).tenancy.id).filter
            fun p => p.status == "completed").map Payment.amount).sum
      ∧ (processTenancy samplePayments sampleTenancy).amountDue
          = max 0 ((processTenancy samplePayments sampleTenancy).tenancy.rent_amount
              - (processTenancy samplePayments sampleTenancy).totalPaid)
      ∧ 0 ≤ (processTenancy samplePayments sampleTenancy).amountDue
      ∧ totalExpectedRent (fetchRentCollectionData [sampleTenancy] samplePayments)
          = ((fetchRentCollectionData [sampleTenancy] samplePayments).map
              fun i => i.tenancy.rent_amount).sum
      ∧ totalCollectedRent (fetchRentCollectionData [sampleTenancy] samplePayments)
          = ((fetchRentCollectionData [sampleTenancy] samplePayments).map
              fun i => i.totalPaid).sum
      ∧ totalOutstanding (fetchRentCollectionData [sampleTenancy] samplePayments)
          = ((fetchRentCollectionData [sampleTenancy] samplePayments).map
              fun i => i.amountDue).sum
      ∧ (totalExpectedRent (fetchRentCollectionData [sampleTenancy] samplePayments)
            = 0
          → collectionRate (fetchRentCollectionData [sampleTenancy] samplePayments)
              = 0)) :=
  ⟨by simp [fetchRentCollectionData],
   rentCollection_aggregation [sampleTenancy] samplePayments
     (processTenancy samplePayments sampleTenancy)
     (by simp [fetchRentCollectionData])⟩

/-! ## C7 -/

/-- C7: each of the four real-time subscription handlers re-runs exactly
the fetch issued by its component's initial load; every call any of them
issues is a select, and executing a handler's calls leaves the database
unchanged. -/
theorem subscription_handlers_read_only (db : DB) :
    pendingRequestsHandlerCalls = fetchRequestsCalls
    ∧ tenantTenanciesHandlerCalls = fetchTenantDataCalls
    ∧ tenantRequestsHandlerCalls = fetchMyRequestsCalls
    ∧ joinRequestsChangesHandlerCalls = fetchMyRequestsCalls
    ∧ (∀ c ∈ pendingRequestsHandlerCalls, ∃ tbl, c = DBCall.selectQuery tbl)
    ∧ (∀ c ∈ tenantTenanciesHandlerCalls, ∃ tbl, c = DBCall.selectQuery tbl)
    ∧ (∀ c ∈ tenantRequestsHandlerCalls, ∃ tbl, c = DBCall.selectQuery tbl)
    ∧ (∀ c ∈ joinRequestsChangesHandlerCalls, ∃ tbl, c = DBCall.selectQuery tbl)
    ∧ execCalls db pendingRequestsHandlerCalls = db
    ∧ execCalls db tenantTenanciesHandlerCalls = db
    ∧ execCalls db tenantRequestsHandlerCalls = db
    ∧ execCalls db joinRequestsChangesHandlerCalls = db := by
  refine ⟨rfl, rfl, rfl, rfl, ?_, ?_, ?_, ?_, rfl, rfl, rfl, rfl⟩ <;>
    · intro c hc
      simp only [pendingRequestsHandlerCalls, tenantTenanciesHandlerCalls,
        tenantRequestsHandlerCalls, joinRequestsChangesHandlerCalls,
        fetchRequestsCalls, fetchTenantDataCalls, fetchMyRequestsCalls,
        List.mem_cons, List.not_mem_nil, or_false] at hc
      rcases hc with rfl | rfl <;> exact ⟨_, rfl⟩

/-! ## C4: helper lemmas for the occupancy invariant -/

lemma occupancy_core_some (units : List UnitRow) (old : List Tenancy)
    (t : Tenancy) (uid : Nat)
    (hinv : ∀ u ∈ units, (u.status = "occupied" ↔
        ∃ t' ∈ old, t'.status = "active" ∧ t'.unit_id = some u.id))
    (hact : t.status = "active") (hu : t.unit_id = some uid) :
    ∀ u ∈ units.map (fun v =>
        if v.id = uid then { v with status := "occupied" } else v),
      (u.status = "occupied" ↔
        ∃ t' ∈ old ++ [t], t'.status = "active" ∧ t'.unit_id = some u.id) := by
  intro u hu'
  obtain ⟨v, hv, rfl⟩ := List.mem_map.mp hu'
  by_cases h : v.id = uid
  · rw [if_pos h]
    constructor
    · intro _
      refine ⟨t, List.mem_append_right _ (List.mem_singleton.mpr rfl),
        hact, ?_⟩
      rw [hu, h]
    · intro _
      rfl
  · rw [if_neg h, hinv v hv]
    constructor
    · rintro ⟨t', ht', hp⟩
      exact ⟨t', List.mem_append_left _ ht', hp⟩
    · rintro ⟨t', ht', hact', hid'⟩
      rcases List.mem_append.mp ht' with h1 | h1
      · exact ⟨t', h1, hact', hid'⟩
      · rw [List.mem_singleton.mp h1, hu] at hid'
        exact absurd (Option.some.inj hid').symm h

lemma occupancy_core_none (units : List UnitRow) (old : List Tenancy)
    (t : Tenancy)
    (hinv : ∀ u ∈ units, (u.status = "occupied" ↔
        ∃ t' ∈ old, t'.status = "active" ∧ t'.unit_id = some u.id))
    (hu : t.unit_id = Option.none) :
    ∀ u ∈ units,
      (u.status = "occupied" ↔
        ∃ t' ∈ old ++ [t], t'.status = "active" ∧ t'.unit_id = some u.id) := by
  intro u hu'
  rw [hinv u hu']
  constructor
  · rintro ⟨t', ht', hp⟩
    exact ⟨t', List.mem_append_left _ ht', hp⟩
  · rintro ⟨t', ht', hact', hid'⟩
    rcases List.mem_append.mp ht' with h1 | h1
    · exact ⟨t', h1, hact', hid'⟩
    · rw [List.mem_singleton.mp h1, hu] at hid'
      exact absurd hid' (Option.noConfusion)

lemma approveRequest_success_some_shape (db : DB) (request : JoinRequestView)
    (today : String) (newTenancyId : Nat) (uid : Nat)
    (h : request.unit_id = some uid) :
    (approveRequest db request today newTenancyId ApproveFail.none).db.units
        = db.units.map (fun v =>
            if v.id = uid then { v with status := "occupied" } else v)
    ∧ (approveRequest db request today newTenancyId ApproveFail.none).db.tenancies
        = db.tenancies ++ [tenancyData request today newTenancyId] := by
  simp [approveRequest, ApproveFail.none, applyWrite, h]

lemma approveRequest_success_none_shape (db : DB) (request : JoinRequestView)
    (today : String) (newTenancyId : Nat) (h : request.unit_id = Option.none) :
    (approveRequest db request today newTenancyId ApproveFail.none).db.units
        = db.units
    ∧ (approveRequest db request today newTenancyId ApproveFail.none).db.tenancies
        = db.tenancies ++ [tenancyData request today newTenancyId] := by
  simp [approveRequest, ApproveFail.none, applyWrite, h]

lemma handleAddTenant_success_shape (db : DB) (form : AddTenantForm)
    (newUserId newTenancyId : Nat) :
    ∃ tid,
      (handleAddTenant db form newUserId newTenancyId AddTenantFail.none).db.units
          = db.units.map (fun v =>
              if v.id = form.unitId then { v with status := "occupied" } else v)
      ∧ (handleAddTenant db form newUserId newTenancyId
            AddTenantFail.none).db.tenancies
          = db.tenancies ++
              [{ id := newTenancyId
                 tenant_id := tid
                 unit_id := some form.unitId
                 rent_amount := form.rentAmount
                 start_date := form.startDate
                 end_date := if form.endDate = "" then Option.none
                             else some form.endDate
                 status := "active" }] := by
  simp only [handleAddTenant]
  rcases hm : db.profiles.filter (fun p => p.email == form.email) with
      _ | ⟨p, _ | ⟨q, l⟩⟩
  · exact ⟨newUserId, by simp [hm, AddTenantFail.none, applyWrite],
      by simp [hm, AddTenantFail.none, applyWrite]⟩
  · exact ⟨p.user_id, by simp [hm, AddTenantFail.none, applyWrite],
      by simp [hm, AddTenantFail.none, applyWrite]⟩
  · exact ⟨newUserId, by simp [hm, AddTenantFail.none, applyWrite],
      by simp [hm, AddTenantFail.none, applyWrite]⟩

/-- C4 (counterexample): the claim fails on a partial-failure run of the
approval operation.  In the sample database the occupancy invariant holds
and the sample request is a fetched pending request; approving it with the
final unit-status update failing (an error the code swallows) leaves an
active tenancy referencing unit 1 while the unit's status is still
`'vacant'`, so the invariant is false after the operation. -/
theorem unitOccupancy_counterexample :
    unitOccupancyInvariant sampleDB
    ∧ sampleRequest ∈ fetchRequests sampleDB 9
    ∧ sampleView.id = sampleRequest.id
    ∧ ¬ unitOccupancyInvariant
        (applyAppOp sampleDB
          (AppOp.approveRequest sampleView "2026-10-12" 7
            { tenancyInsertFails := false, requestUpdateFails := false,
              unitUpdateFails := true })) := by
  decide

/-- C4 (amended): after every fully successful run of the approval,
rejection, or add-tenant operation (every database call applied, none
failing), the occupancy invariant - a unit's status is `'occupied'` exactly
when an active tenancy references it - is preserved: if it held before the
operation, it holds after.  (On partial-failure runs the code does not
restore it.) -/
theorem unitOccupancy_preserved_on_success (db : DB)
    (hinv : unitOccupancyInvariant db)
    (request : JoinRequestView) (today : String) (newTenancyId : Nat)
    (requestId : Nat) (reason : String) (form : AddTenantForm)
    (newUserId newTenancyId2 : Nat) :
    unitOccupancyInvariant
        (approveRequest db request today newTenancyId ApproveFail.none).db
    ∧ unitOccupancyInvariant (rejectRequest db requestId reason false).db
    ∧ unitOccupancyInvariant
        (handleAddTenant db form newUserId newTenancyId2 AddTenantFail.none).db := by
  refine ⟨?_, ?_, ?_⟩
  · cases hru : request.unit_id with
    | none =>
        obtain ⟨h1, h2⟩ :=
          approveRequest_success_none_shape db request today newTenancyId hru
        unfold unitOccupancyInvariant
        rw [h1, h2]
        exact occupancy_core_none db.units db.tenancies _ hinv
          (by simp [tenancyData, hru])
    | some uid =>
        obtain ⟨h1, h2⟩ :=
          approveRequest_success_some_shape db request today newTenancyId uid hru
        unfold unitOccupancyInvariant
        rw [h1, h2]
        exact occupancy_core_some db.units db.tenancies _ uid hinv rfl
          (by simp [tenancyData, hru])
  · exact hinv
  · obtain ⟨tid, h1, h2⟩ :=
      handleAddTenant_success_shape db form newUserId newTenancyId2
    unfold unitOccupancyInvariant
    rw [h1, h2]
    exact occupancy_core_some db.units db.tenancies _ form.unitId hinv rfl rfl

/-- C4 (witness): the preservation theorem at the sample database (where
the invariant holds), the sample request, and the sample add-tenant
form. -/
theorem unitOccupancy_preserved_on_success_witness :
    unitOccupancyInvariant sampleDB
    ∧ (unitOccupancyInvariant
          (approveRequest sampleDB sampleView "2026-10-12" 7 ApproveFail.none).db
      ∧ unitOccupancyInvariant (rejectRequest sampleDB 4 "  " false).db
      ∧ unitOccupancyInvariant
          (handleAddTenant sampleDB sampleAddTenantForm 30 31
            AddTenantFail.none).db) :=
  ⟨by decide,
   unitOccupancy_preserved_on_success sampleDB (by decide) sampleView
     "2026-10-12" 7 4 "  " sampleAddTenantForm 30 31⟩

/-! ## C6: helper lemmas for the join-request status machine -/

lemma approveRequest_join_requests_shape (db : DB) (request : JoinRequestView)
    (today : String) (newTenancyId : Nat) (fail : ApproveFail) :
    (approveRequest db request today newTenancyId fail).db.join_requests
      = if fail.tenancyInsertFails || fail.requestUpdateFails then
          db.join_requests
        else db.join_requests.map (fun r =>
          if r.id = request.id then { r with status := "approved" } else r) := by
  obtain ⟨f1, f2, f3⟩ := fail
  cases hru : request.unit_id <;> cases f1 <;> cases f2 <;> cases f3 <;>
    simp [approveRequest, applyWrite, hru]

lemma handleAddTenant_join_requests (db : DB) (form : AddTenantForm)
    (newUserId newTenancyId : Nat) (fail : AddTenantFail) :
    (handleAddTenant db form newUserId newTenancyId fail).db.join_requests
      = db.join_requests := by
  obtain ⟨g1, g2, g3⟩ := fail
  simp only [handleAddTenant]
  rcases hm : db.profiles.filter (fun p => p.email == form.email) with
      _ | ⟨p, _ | ⟨q, l⟩⟩ <;>
    cases g1 <;> cases g2 <;> cases g3 <;> simp [hm, applyWrite]

lemma trivial_status_transition (db : DB)
    (hall : ∀ r ∈ db.join_requests, statusOk r) :
    ∃ f : JoinRequest → JoinRequest, ∃ appended : List JoinRequest,
      db.join_requests = db.join_requests.map f ++ appended
      ∧ (∀ a ∈ appended, a.status = "pending")
      ∧ (∀ r ∈ db.join_requests,
          f r = r ∨ (r.status = "pending"
            ∧ ((f r).status = "approved" ∨ (f r).status = "rejected")))
      ∧ (∀ r ∈ db.join_requests, statusOk r) :=
  ⟨id, [], by simp, by simp, fun r _ => Or.inl rfl, hall⟩

lemma mapped_status_transition (db : DB) (targetId : Nat)
    (g : JoinRequest → JoinRequest)
    (hg_id : ∀ r : JoinRequest, r.id ≠ targetId → g r = r)
    (hg_st : ∀ r : JoinRequest, r.id = targetId →
        (g r).status = "approved" ∨ (g r).status = "rejected")
    (hids : (db.join_requests.map JoinRequest.id).Nodup)
    (row : JoinRequest) (hrowmem : row ∈ db.join_requests)
    (hrowid : row.id = targetId) (hrowpending : row.status = "pending")
    (hall : ∀ r ∈ db.join_requests, statusOk r) :
    (∀ r ∈ db.join_requests,
        g r = r ∨ (r.status = "pending"
          ∧ ((g r).status = "approved" ∨ (g r).status = "rejected")))
    ∧ (∀ r ∈ db.join_requests.map g, statusOk r) := by
  have key : ∀ r ∈ db.join_requests,
      g r = r ∨ (r.status = "pending"
        ∧ ((g r).status = "approved" ∨ (g r).status = "rejected")) := by
    intro r hr
    by_cases h : r.id = targetId
    · right
      have hrrow : r = row :=
        List.inj_on_of_nodup_map hids hr hrowmem (by rw [h, hrowid])
      exact ⟨by rw [hrrow]; exact hrowpending, hg_st r h⟩
    · exact Or.inl (hg_id r h)
  refine ⟨key, ?_⟩
  intro r' hr'
  obtain ⟨r, hr, rfl⟩ := List.mem_map.mp hr'
  rcases key r hr with h | ⟨_, h | h⟩
  · rw [h]
    exact hall r hr
  · exact Or.inr (Or.inl h)
  · exact Or.inr (Or.inr h)

/-- C6: the join-request status machine.  Over every operation of the
application (issued with the side conditions the UI guarantees: approve
and reject act on a request from the fetched pending list; ids are unique),
the new join-requests table is the old one with each row either unchanged
or moved from `'pending'` to `'approved'` or `'rejected'`, plus possibly
appended rows that are created `'pending'` (tenant submissions); hence
every status stays in the three-value set. -/
theorem joinRequest_status_machine (db : DB) (op : AppOp)
    (hids : (db.join_requests.map JoinRequest.id).Nodup)
    (hwf : opWellFormed db op)
    (hall : ∀ r ∈ db.join_requests, statusOk r) :
    ∃ f : JoinRequest → JoinRequest, ∃ appended : List JoinRequest,
      (applyAppOp db op).join_requests = db.join_requests.map f ++ appended
      ∧ (∀ a ∈ appended, a.status = "pending")
      ∧ (∀ r ∈ db.join_requests,
          f r = r ∨ (r.status = "pending"
            ∧ ((f r).status = "approved" ∨ (f r).status = "rejected")))
      ∧ (∀ r ∈ (applyAppOp db op).join_requests, statusOk r) := by
  cases op with
  | submitRequest tid pid uidm msg nid fl =>
      cases fl with
      | true =>
          have h : (applyAppOp db
              (AppOp.submitRequest tid pid uidm msg nid true)).join_requests
              = db.join_requests := by
            simp [applyAppOp, submitRequest]
          rw [h]
          exact trivial_status_transition db hall
      | false =>
          have h : (applyAppOp db
              (AppOp.submitRequest tid pid uidm msg nid false)).join_requests
              = db.join_requests ++
                [(⟨nid, tid, pid, uidm, joinRequestDefaultStatus,
                   if jsTrim msg = "" then Option.none else some (jsTrim msg),
                   Option.none⟩ : JoinRequest)] := by
            simp [applyAppOp, submitRequest, applyWrite]
          rw [h]
          refine ⟨id,
            [⟨nid, tid, pid, uidm, joinRequestDefaultStatus,
              if jsTrim msg = "" then Option.none else some (jsTrim msg),
              Option.none⟩],
            by simp, ?_, fun r _ => Or.inl rfl, ?_⟩
          · intro a ha
            rw [List.mem_singleton.mp ha]
            rfl
          · intro r hr
            rcases List.mem_append.mp hr with h1 | h1
            · exact hall r h1
            · rw [List.mem_singleton.mp h1]
              exact Or.inl rfl
  | approveRequest req today nid fl =>
      have hsh := approveRequest_join_requests_shape db req today nid fl
      by_cases hff : (fl.tenancyInsertFails || fl.requestUpdateFails) = true
      · rw [hff, if_pos rfl] at hsh
        have h : (applyAppOp db
            (AppOp.approveRequest req today nid fl)).join_requests
            = db.join_requests := hsh
        rw [h]
        exact trivial_status_transition db hall
      · rw [Bool.not_eq_true] at hff
        rw [hff] at hsh
        simp only [Bool.false_eq_true, if_false] at hsh
        obtain ⟨lid, row, hrowf, hreqid⟩ := hwf
        obtain ⟨hrowmem, hrowpending⟩ := mem_fetchRequests db lid row hrowf
        obtain ⟨k1, k2⟩ := mapped_status_transition db req.id
          (fun r => if r.id = req.id then { r with status := "approved" } else r)
          (fun r h => by simp [h])
          (fun r h => Or.inl (by simp [h]))
          hids row hrowmem hreqid.symm hrowpending hall
        have h : (applyAppOp db
            (AppOp.approveRequest req today nid fl)).join_requests
            = db.join_requests.map (fun r =>
                if r.id = req.id then { r with status := "approved" } else r) :=
          hsh
        rw [h]
        exact ⟨_, [], by simp, by simp, k1, k2⟩
  | rejectRequest rid reason fl =>
      cases fl with
      | true =>
          have h : (applyAppOp db
              (AppOp.rejectRequest rid reason true)).join_requests
              = db.join_requests := rfl
          rw [h]
          exact trivial_status_transition db hall
      | false =>
          obtain ⟨lid, row, hrowf, hreqid⟩ := hwf
          obtain ⟨hrowmem, hrowpending⟩ := mem_fetchRequests db lid row hrowf
          obtain ⟨k1, k2⟩ := mapped_status_transition db rid
            (fun r =>
              if r.id = rid then
                { r with
                    status := "rejected",
                    rejection_reason :=
                      if jsTrim reason = "" then Option.none
                      else some (jsTrim reason) }
              else r)
            (fun r h => by simp [h])
            (fun r h => Or.inr (by simp [h]))
            hids row hrowmem hreqid.symm hrowpending hall
          have h : (applyAppOp db
              (AppOp.rejectRequest rid reason false)).join_requests
              = db.join_requests.map (fun r =>
                  if r.id = rid then
                    { r with
                        status := "rejected",
                        rejection_reason :=
                          if jsTrim reason = "" then Option.none
                          else some (jsTrim reason) }
                  else r) := by
            simp [applyAppOp, rejectRequest, applyWrite]
          rw [h]
          exact ⟨_, [], by simp, by simp, k1, k2⟩
  | handleAddTenant form nu nt fl =>
      have h : (applyAppOp db
          (AppOp.handleAddTenant form nu nt fl)).join_requests
          = db.join_requests := handleAddTenant_join_requests db form nu nt fl
      rw [h]
      exact trivial_status_transition db hall
  | handlePayment p fl =>
      have h : (applyAppOp db (AppOp.handlePayment p fl)).join_requests
          = db.join_requests := by
        cases fl <;> simp [applyAppOp, applyWrite]
      rw [h]
      exact trivial_status_transition db hall
  | addProperty p fl =>
      have h : (applyAppOp db (AppOp.addProperty p fl)).join_requests
          = db.join_requests := by
        cases fl <;> simp [applyAppOp, applyWrite]
      rw [h]
      exact trivial_status_transition db hall
  | addUnit u fl =>
      have h : (applyAppOp db (AppOp.addUnit u fl)).join_requests
          = db.join_requests := by
        cases fl <;> simp [applyAppOp, applyWrite]
      rw [h]
      exact trivial_status_transition db hall
  | addMaintenanceRequest m fl =>
      have h : (applyAppOp db
          (AppOp.addMaintenanceRequest m fl)).join_requests
          = db.join_requests := by
        cases fl <;> simp [applyAppOp, applyWrite]
      rw [h]
      exact trivial_status_transition db hall
  | toggleSearchability pid cur fl =>
      have h : (applyAppOp db
          (AppOp.toggleSearchability pid cur fl)).join_requests
          = db.join_requests := by
        cases fl <;> simp [applyAppOp, applyWrite]
      rw [h]
      exact trivial_status_transition db hall

/-- C6 (witness): the status-machine theorem at the sample database and a
rejection of the sample pending request. -/
theorem joinRequest_status_machine_witness :
    ((sampleDB.join_requests.map JoinRequest.id).Nodup
      ∧ opWellFormed sampleDB (AppOp.rejectRequest 4 " spam " false)
      ∧ (∀ r ∈ sampleDB.join_requests, statusOk r))
    ∧ (∃ f : JoinRequest → JoinRequest, ∃ appended : List JoinRequest,
        (applyAppOp sampleDB
            (AppOp.rejectRequest 4 " spam " false)).join_requests
            = sampleDB.join_requests.map f ++ appended
        ∧ (∀ a ∈ appended, a.status = "pending")
        ∧ (∀ r ∈ sampleDB.join_requests,
            f r = r ∨ (r.status = "pending"
              ∧ ((f r).status = "approved" ∨ (f r).status = "rejected")))
        ∧ (∀ r ∈ (applyAppOp sampleDB
            (AppOp.rejectRequest 4 " spam " false)).join_requests,
            statusOk r)) :=
  ⟨⟨by decide, ⟨9, sampleRequest, by decide, by decide⟩, by decide⟩,
   joinRequest_status_machine sampleDB (AppOp.rejectRequest 4 " spam " false)
     (by decide) ⟨9, sampleRequest, by decide, by decide⟩ (by decide)⟩

end LeaseLinkPay
